import Mathlib

/-!
Verification of the client-side event/stream orchestration layer of the
webflux-client-poc-ts repository: the query subscription manager
(`hooks/useReactiveApi.ts`), the resilience wrapper and SSE adapter
(`services/api.ts`), the socket adapter (`services/websocket.ts`), and the
event reconciler (`useUserEventStream`).

Each TypeScript function is shallowly embedded as an executable Lean
definition; the RxJS subscription lifecycle is modelled as an explicit
step relation on a manager state, with subscriptions identified by
numeric ids and the producer-cleanup / finalize semantics of
`unsubscribe` made explicit.
-/

namespace WebfluxClient

/-! ## Data model (`types/user.ts`) -/

/-- The User entity: `{ id: number, name: string, email: string }`. -/
structure User where
  id : Int
  name : String
  email : String
deriving DecidableEq, Repr

/-- Normalized error shape produced by `handleError` in `services/api.ts`. -/
structure ApiError where
  message : String
  status : Nat
  timestamp : String
deriving DecidableEq, Repr

/-! ## Event reconciler (`useUserEventStream` in the WebSocket hooks file) -/

/-- An inbound socket frame: `{ type, payload, timestamp }`. The `type`
field is the string the source switches over (`USER_CREATED`,
`USER_UPDATED`, `USER_DELETED`). -/
structure UserStreamMessage where
  type : String
  payload : User
  timestamp : Nat
deriving DecidableEq, Repr

/-- The `setUsers(prevUsers => switch (event.type) ...)` updater of
`useUserEventStream`: CREATED appends, UPDATED maps matching ids to the
payload, DELETED filters the matching id out, anything else is the
identity. -/
def applyUserEvent (prevUsers : List User) (event : UserStreamMessage) : List User :=
  if event.type = "USER_CREATED" then
    prevUsers ++ [event.payload]
  else if event.type = "USER_UPDATED" then
    prevUsers.map fun user => if user.id = event.payload.id then event.payload else user
  else if event.type = "USER_DELETED" then
    prevUsers.filter fun user => user.id != event.payload.id
  else
    prevUsers

/-- Folding a sequence of change events into the user list, starting from
the hook's initial `useState<User[]>([])`. -/
def reconcile (events : List UserStreamMessage) : List User :=
  events.foldl applyUserEvent []

/-- Sample entities used in concrete evaluations. -/
def alice : User := ⟨1, "Alice", "alice@example.com"⟩

def bob : User := ⟨2, "Bob", "bob@example.com"⟩

def aliceRenamed : User := ⟨1, "X", "alice@example.com"⟩

def user99 : User := ⟨99, "Nobody", "nobody@example.com"⟩

/-! ## Query subscription manager (`useReactiveApi` in `hooks/useReactiveApi.ts`)

The hook's observable state is the `useState` cell
`{ data, loading, error }`.  Subscriptions are modelled by numeric ids:
`subCurrent` is the `subscription.current` ref (it keeps pointing at the
most recently created subscription object even after that subscription
has closed), and `liveSubs` is the set of subscriptions whose producer
is still running, i.e. that have been subscribed and whose cleanup has
not yet run.  `unsubscribe` on a live subscription runs the producer's
cleanup and fires the `finalize` operator (which sets `loading := false`);
on an already-closed subscription it is a no-op.  `setState` calls are
applied immediately in program order. -/

/-- The `UseReactiveApiState<T>` record of the hook. -/
structure UseReactiveApiState (T : Type) where
  data : Option T
  loading : Bool
  error : Option ApiError
deriving DecidableEq, Repr

/-- Full manager state: observable query state plus subscription
bookkeeping. -/
structure ManagerState (T : Type) where
  query : UseReactiveApiState T
  subCurrent : Option Nat
  liveSubs : List Nat
  nextSubId : Nat
deriving DecidableEq, Repr

/-- Mount-time state: `useState` initializer `{ data: null, loading: true,
error: null }`, no subscription yet. -/
def initManager (T : Type) : ManagerState T :=
  { query := ⟨none, true, none⟩, subCurrent := none, liveSubs := [], nextSubId := 0 }

/-- Observable events of one `executeQuery` call, used to state in which
order the prior producer's cleanup and the new subscribe happen. -/
inductive SubEvent where
  | setLoading
  | cleanup (i : Nat)
  | subscribe (i : Nat)
deriving DecidableEq, Repr

/-- `if (subscription.current) { subscription.current.unsubscribe() }`:
when the tracked subscription is still live its producer cleanup runs and
the `finalize` operator sets `loading := false`; when it is `null` or
already closed nothing happens. -/
def unsubscribeCurrent {T : Type} (s : ManagerState T) : ManagerState T × List SubEvent :=
  match s.subCurrent with
  | none => (s, [])
  | some i =>
    if i ∈ s.liveSubs then
      ({ s with liveSubs := s.liveSubs.erase i,
                query := { s.query with loading := false } }, [SubEvent.cleanup i])
    else
      (s, [])

/-- The operations that can hit a mounted manager: `executeQuery`
(initial start, `refetch()`, or the effect re-run on a dependency
change), a value or error delivered by the producer of subscription `i`,
completion of that producer, `reset()`, and component teardown. -/
inductive ManagerOp (T : Type) where
  | exec
  | nextValue (i : Nat) (v : T)
  | errorOut (i : Nat) (e : ApiError)
  | complete (i : Nat)
  | reset
  | teardown
deriving DecidableEq, Repr

/-- One step of the manager, returning the new state and the observable
subscription events, each branch transcribing the corresponding handler
of `useReactiveApi`:

* `exec`: `setState(prev => ({ ...prev, loading: true, error: null }))`,
  then `subscription.current?.unsubscribe()`, then
  `subscription.current = observableFactory().pipe(takeUntil(destroy$),
  finalize(...)).subscribe({ next, error })`;
* `nextValue`: the `next` handler `setState({ data, loading: false,
  error: null })` — it only fires while the subscription is live;
* `errorOut`: the `error` handler `setState({ data: null, loading:
  false, error })`; the subscription terminates, so its producer cleanup
  and `finalize` also run;
* `complete`: no `complete` handler is installed, but `finalize` sets
  `loading := false` and the subscription terminates;
* `reset`: `setState({ data: null, loading: false, error: null })` —
  and nothing else: the subscription ref is not touched;
* `teardown`: the effect cleanup `destroy$.next(); destroy$.complete();
  subscription.current?.unsubscribe()` — any live subscription is
  stopped (via `takeUntil`), which runs its cleanup and `finalize`. -/
def managerStep {T : Type} (s : ManagerState T) : ManagerOp T → ManagerState T × List SubEvent
  | .exec =>
    let s1 : ManagerState T := { s with query := { s.query with loading := true, error := none } }
    let r := unsubscribeCurrent s1
    let i := r.1.nextSubId
    ({ r.1 with subCurrent := some i, liveSubs := r.1.liveSubs ++ [i], nextSubId := i + 1 },
     SubEvent.setLoading :: r.2 ++ [SubEvent.subscribe i])
  | .nextValue i v =>
    if i ∈ s.liveSubs then
      ({ s with query := ⟨some v, false, none⟩ }, [])
    else
      (s, [])
  | .errorOut i e =>
    if i ∈ s.liveSubs then
      ({ s with query := ⟨none, false, some e⟩, liveSubs := s.liveSubs.erase i },
       [SubEvent.cleanup i])
    else
      (s, [])
  | .complete i =>
    if i ∈ s.liveSubs then
      ({ s with query := { s.query with loading := false }, liveSubs := s.liveSubs.erase i },
       [SubEvent.cleanup i])
    else
      (s, [])
  | .reset =>
    ({ s with query := ⟨none, false, none⟩ }, [])
  | .teardown =>
    if s.liveSubs.isEmpty then
      (s, [])
    else
      ({ s with liveSubs := [], query := { s.query with loading := false } },
       s.liveSubs.map SubEvent.cleanup)

/-- Running a sequence of operations from the mount-time state. -/
def managerRun {T : Type} (ops : List (ManagerOp T)) : ManagerState T :=
  ops.foldl (fun s op => (managerStep s op).1) (initManager T)

/-- Structural invariant of the manager: at most one live subscription,
and a live subscription is always the tracked one. -/
def ManagerInv {T : Type} (s : ManagerState T) : Prop :=
  s.liveSubs = [] ∨ ∃ j, s.liveSubs = [j] ∧ s.subCurrent = some j

/-! ## Resilience wrapper (`get` / `handleError` in `services/api.ts`)

An axios call settles with either a decoded body or an `AxiosError`
carrying `message`, `response?.status` and `response?.data?.message`.
The client is modelled as the sequence of outcomes its successive HTTP
calls would settle with. -/

/-- The parts of an `AxiosError` that `handleError` reads. -/
structure AxiosErrorModel where
  message : String
  responseStatus : Option Nat
  responseDataMessage : Option String
deriving DecidableEq, Repr

/-- JavaScript `x || y` on an optional string: empty string is falsy. -/
def jsOrString (x : Option String) (y : String) : String :=
  match x with
  | some s => if s = "" then y else s
  | none => y

/-- JavaScript `x || y` on an optional number: zero is falsy. -/
def jsOrNat (x : Option Nat) (y : Nat) : Nat :=
  match x with
  | some n => if n = 0 then y else n
  | none => y

/-- `handleError`: normalizes a failure into
`{ message: (error.response?.data as any)?.message || error.message,
status: error.response?.status || 500, timestamp: new Date().toISOString() }`.
The wall-clock timestamp is passed in as `now`. -/
def handleError (now : String) (error : AxiosErrorModel) : ApiError :=
  { message := jsOrString error.responseDataMessage error.message,
    status := jsOrNat error.responseStatus 500,
    timestamp := now }

/-- How one settled HTTP call looks to a subscriber. -/
inductive HttpOutcome (T : Type) where
  | success (value : T)
  | failure (error : AxiosErrorModel)
deriving DecidableEq, Repr

/-- `retry({ count: n, delay: 1000 })`: on error, re-subscribe to the
source up to `n` more times (the delay only spaces the re-subscriptions
out in time); the `k`-th subscription observes `attempt k`.  After the
last allowed re-subscription fails, that failure propagates. -/
def retrySubscribe {T : Type} (attempt : Nat → HttpOutcome T) : Nat → Nat → HttpOutcome T
  | k, 0 => attempt k
  | k, n + 1 =>
    match attempt k with
    | .success v => .success v
    | .failure _ => retrySubscribe attempt (k + 1) n

/-- The private `get<T>(url)` of `ReactiveApiService`:
`from(this.client.get<T>(url)).pipe(map(r => r.data), retry({count: 3,
delay: 1000}), timeout(15000), catchError(handleError), shareReplay(1))`.

`this.client.get(url)` is evaluated once, eagerly, when the pipeline is
built: it consumes the client's call #0 and produces a single settled
promise.  Every re-subscription made by `retry` goes to
`from(promise)`, which replays that same settled outcome — no further
client call happens.  `timeout(15000)` cannot fire on an
already-settled promise and `shareReplay(1)` is the identity for the
single subscriber, so both are absorbed by this untimed model.
`catchError(handleError)` maps a final failure to the normalized
`ApiError`. -/
def get {T : Type} (now : String) (clientCalls : Nat → HttpOutcome T) : Except ApiError T :=
  let promise := clientCalls 0
  match retrySubscribe (fun _ => promise) 0 3 with
  | .success v => Except.ok v
  | .failure e => Except.error (handleError now e)

/-- A client whose first call fails with a plain network error (no HTTP
response) and whose later calls would succeed with `42`. -/
def failThenSuccess : Nat → HttpOutcome Nat :=
  fun k => if k = 0 then .failure ⟨"Network Error", none, none⟩ else .success 42

/-! ## Server-push (SSE) adapter (`getAllUsers` in `services/api.ts`)

`getAllUsers` opens an `EventSource`; `onmessage` tries
`JSON.parse(event.data)` and pushes the decoded user, dropping the
message on a parse error; `onerror` — which fires both when the server
ends the stream and on a transport error — closes the source, emits the
accumulated buffer once (`subscriber.next([...users])`) and completes. -/

/-- Why the channel terminated.  `EventSource` routes both through the
same `onerror` handler. -/
inductive SseTermination where
  | endOfStream
  | transportError
deriving DecidableEq, Repr

/-- The `onmessage` handler:
`try { users.push(JSON.parse(event.data)) } catch { log and drop }`.
`decode` stands for `JSON.parse` specialised to `User`. -/
def sseOnMessage (decode : String → Option User) (users : List User) (eventData : String) :
    List User :=
  match decode eventData with
  | some user => users ++ [user]
  | none => users

/-- One run of the `getAllUsers` observable for one subscriber: all data
messages arrive in order, then the channel terminates.  The result is
the list of emissions delivered to the subscriber and whether the
observable completed. -/
def getAllUsers (decode : String → Option User) (messages : List String)
    (_term : SseTermination) : List (List User) × Bool :=
  let users := messages.foldl (sseOnMessage decode) []
  ([users], true)

/-! ## Socket adapter (`ReactiveWebSocketService` in `services/websocket.ts`) -/

/-- The connection status enum of `connectionStatus$`. -/
inductive ConnectionStatus where
  | connecting
  | connected
  | disconnected
  | error
deriving DecidableEq, Repr

/-- Observable state of one `ReactiveWebSocketService` instance:
whether `socket$` is non-null, the current value of the
`connectionStatus$` BehaviorSubject, whether `destroy$` has been
completed, and how many `webSocket({...})` channels have been created
over the instance's lifetime. -/
structure WebSocketServiceState where
  socketOpen : Bool
  status : ConnectionStatus
  destroyCompleted : Bool
  channelsOpened : Nat
deriving DecidableEq, Repr

/-- Constructor state: `socket$ = null`,
`connectionStatus$ = new BehaviorSubject('disconnected')`. -/
def initWebSocketService : WebSocketServiceState :=
  { socketOpen := false, status := .disconnected, destroyCompleted := false,
    channelsOpened := 0 }

/-- What `connect()` (and `getConnectionStatus()`) hand back:
`this.connectionStatus$.asObservable()`, a read-only view of the one
status subject of the instance. -/
inductive StatusObservable where
  | ofConnectionStatusSubject
deriving DecidableEq, Repr

/-- `connect()`: if `socket$` is already set, immediately return the
status observable; otherwise push `connecting`, create the channel with
`webSocket({...})`, and return the status observable.  (The later
`openObserver`/`closeObserver` callbacks are separate events, not part
of this call.) -/
def connect (s : WebSocketServiceState) : WebSocketServiceState × StatusObservable :=
  if s.socketOpen then
    (s, .ofConnectionStatusSubject)
  else
    ({ s with status := ConnectionStatus.connecting, socketOpen := true,
              channelsOpened := s.channelsOpened + 1 },
     StatusObservable.ofConnectionStatusSubject)

/-- `disconnect()`: `destroy$.next(); destroy$.complete()` (both no-ops
without error on an already-completed subject), then if `socket$` is set
complete it and null it out, then push `disconnected`.  No path throws,
so the result is always `ok`. -/
def disconnect (s : WebSocketServiceState) : Except String WebSocketServiceState :=
  let s1 := { s with destroyCompleted := true }
  let s2 := if s1.socketOpen then { s1 with socketOpen := false } else s1
  Except.ok { s2 with status := ConnectionStatus.disconnected }

/-- `sendMessage(message)`: throws `'WebSocket not connected'` unless
`socket$` is set and the status is `connected`; otherwise pushes the
frame into the channel (the outbound frame itself is not observed by any
claim). -/
def sendMessage (s : WebSocketServiceState) : Except String WebSocketServiceState :=
  if s.socketOpen = false ∨ s.status ≠ ConnectionStatus.connected then
    Except.error "WebSocket not connected"
  else
    Except.ok s

end WebfluxClient

/-- Generic exactly-one-of-three combinator, used to state the claimed
trichotomy on the query state. -/
abbrev exactlyOne (a b c : Prop) : Prop :=
  (a ∧ ¬b ∧ ¬c) ∨ (¬a ∧ b ∧ ¬c) ∨ (¬a ∧ ¬b ∧ c)

namespace WebfluxClient

/-! ## Helper lemmas: manager invariants -/

theorem managerFoldl_preserves {T : Type} (P : ManagerState T → Prop)
    (hstep : ∀ s op, P s → P (managerStep s op).1) :
    ∀ (ops : List (ManagerOp T)) (s : ManagerState T), P s →
      P (ops.foldl (fun s op => (managerStep s op).1) s)
  | [], _, h => h
  | op :: ops, s, h => managerFoldl_preserves P hstep ops _ (hstep s op h)

theorem managerStep_exec_shape {T : Type} (s : ManagerState T) (h : ManagerInv s) :
    (managerStep s ManagerOp.exec).1.query
        = ⟨s.query.data, s.liveSubs.isEmpty, none⟩
    ∧ (managerStep s ManagerOp.exec).1.liveSubs = [s.nextSubId]
    ∧ (managerStep s ManagerOp.exec).1.subCurrent = some s.nextSubId := by
  rcases h with h | ⟨j, hl, hc⟩
  · cases hcur : s.subCurrent <;>
      simp [managerStep, unsubscribeCurrent, hcur, h]
  · simp [managerStep, unsubscribeCurrent, hc, hl]

theorem managerStep_inv {T : Type} (s : ManagerState T) (op : ManagerOp T)
    (h : ManagerInv s) : ManagerInv (managerStep s op).1 := by
  cases op with
  | exec =>
    rcases managerStep_exec_shape s h with ⟨-, hl, hc⟩
    exact Or.inr ⟨s.nextSubId, hl, hc⟩
  | nextValue i v =>
    by_cases hm : i ∈ s.liveSubs <;>
      simpa [ManagerInv, managerStep, hm] using h
  | errorOut i e =>
    by_cases hm : i ∈ s.liveSubs
    · rcases h with h | ⟨j, hl, hc⟩
      · simp [h] at hm
      · rw [hl] at hm
        simp only [List.mem_singleton] at hm
        subst hm
        exact Or.inl (by simp [managerStep, hl])
    · simpa [ManagerInv, managerStep, hm] using h
  | complete i =>
    by_cases hm : i ∈ s.liveSubs
    · rcases h with h | ⟨j, hl, hc⟩
      · simp [h] at hm
      · rw [hl] at hm
        simp only [List.mem_singleton] at hm
        subst hm
        exact Or.inl (by simp [managerStep, hl])
    · simpa [ManagerInv, managerStep, hm] using h
  | reset =>
    simpa [ManagerInv, managerStep] using h
  | teardown =>
    by_cases hm : s.liveSubs.isEmpty
    · simpa [ManagerInv, managerStep, hm] using h
    · simp [ManagerInv, managerStep, hm]

theorem managerRun_inv {T : Type} (ops : List (ManagerOp T)) : ManagerInv (managerRun ops) :=
  managerFoldl_preserves ManagerInv managerStep_inv ops (initManager T) (Or.inl rfl)

theorem managerStep_data_error {T : Type} (s : ManagerState T) (op : ManagerOp T)
    (h : (s.query.data.isSome && s.query.error.isSome) = false) :
    ((managerStep s op).1.query.data.isSome && (managerStep s op).1.query.error.isSome)
      = false := by
  cases op with
  | exec =>
    cases hcur : s.subCurrent with
    | none => simp [managerStep, unsubscribeCurrent, hcur]
    | some i =>
      by_cases hm : i ∈ s.liveSubs <;>
        simp [managerStep, unsubscribeCurrent, hcur, hm]
  | nextValue i v => by_cases hm : i ∈ s.liveSubs <;> simp [managerStep, hm, h]
  | errorOut i e => by_cases hm : i ∈ s.liveSubs <;> simp [managerStep, hm, h]
  | complete i => by_cases hm : i ∈ s.liveSubs <;> simp [managerStep, hm, h]
  | reset => simp [managerStep]
  | teardown => by_cases hm : s.liveSubs.isEmpty <;> simp [managerStep, hm, h]

/-! ## Theorems: query subscription manager -/

/-- C1: whenever `executeQuery` starts a new query while a prior
subscription for this manager instance is still active, the observable
event trace of the call is exactly: set loading, run the prior
producer's cleanup, subscribe the new factory's sequence — so the prior
subscription is cancelled before the new subscribe; and in every
reachable manager state at most one subscription is live. -/
theorem executeQuery_cancels_prior_before_new_subscribe {T : Type}
    (ops : List (ManagerOp T)) (i : Nat)
    (hcur : (managerRun ops).subCurrent = some i)
    (hlive : i ∈ (managerRun ops).liveSubs) :
    (managerStep (managerRun ops) ManagerOp.exec).2
      = [SubEvent.setLoading, SubEvent.cleanup i,
         SubEvent.subscribe (managerRun ops).nextSubId]
    ∧ ∀ more : List (ManagerOp T), (managerRun more).liveSubs.length ≤ 1 := by
  constructor
  · simp [managerStep, unsubscribeCurrent, hcur, hlive]
  · intro more
    rcases managerRun_inv more with h | ⟨j, hl, -⟩
    · simp [h]
    · simp [hl]

/-- C1 witness: after one `executeQuery` the manager has a live tracked
subscription, and the theorem applies to it. -/
theorem executeQuery_cancels_prior_before_new_subscribe_witness :
    (managerRun (T := Nat) [ManagerOp.exec]).subCurrent = some 0
    ∧ 0 ∈ (managerRun (T := Nat) [ManagerOp.exec]).liveSubs
    ∧ ((managerStep (managerRun (T := Nat) [ManagerOp.exec]) ManagerOp.exec).2
        = [SubEvent.setLoading, SubEvent.cleanup 0,
           SubEvent.subscribe (managerRun (T := Nat) [ManagerOp.exec]).nextSubId]
       ∧ ∀ more : List (ManagerOp Nat), (managerRun more).liveSubs.length ≤ 1) :=
  ⟨by decide, by decide,
   executeQuery_cancels_prior_before_new_subscribe [ManagerOp.exec] 0 (by decide) (by decide)⟩

/-- C2 counterexample: the claimed exactly-one trichotomy fails at two
reachable states: after `reset()` the state is `⟨none, false, none⟩` and
none of the three alternatives holds; and on a refetch after a completed
successful load the state is `⟨some 7, true, none⟩`, where both the
loading alternative and the data-present alternative hold. -/
theorem query_trichotomy_fails :
    decide (exactlyOne
        ((managerRun (T := Nat) [ManagerOp.exec, ManagerOp.reset]).query.loading = true)
        ((managerRun (T := Nat) [ManagerOp.exec, ManagerOp.reset]).query.data.isSome = true
          ∧ (managerRun (T := Nat) [ManagerOp.exec, ManagerOp.reset]).query.error.isSome = false)
        ((managerRun (T := Nat) [ManagerOp.exec, ManagerOp.reset]).query.error.isSome = true
          ∧ (managerRun (T := Nat) [ManagerOp.exec, ManagerOp.reset]).query.data.isSome = false))
      = false
    ∧ decide (exactlyOne
        ((managerRun (T := Nat) [ManagerOp.exec, ManagerOp.nextValue 0 7, ManagerOp.complete 0,
            ManagerOp.exec]).query.loading = true)
        ((managerRun (T := Nat) [ManagerOp.exec, ManagerOp.nextValue 0 7, ManagerOp.complete 0,
            ManagerOp.exec]).query.data.isSome = true
          ∧ (managerRun (T := Nat) [ManagerOp.exec, ManagerOp.nextValue 0 7, ManagerOp.complete 0,
            ManagerOp.exec]).query.error.isSome = false)
        ((managerRun (T := Nat) [ManagerOp.exec, ManagerOp.nextValue 0 7, ManagerOp.complete 0,
            ManagerOp.exec]).query.error.isSome = true
          ∧ (managerRun (T := Nat) [ManagerOp.exec, ManagerOp.nextValue 0 7, ManagerOp.complete 0,
            ManagerOp.exec]).query.data.isSome = false))
      = false := by decide

/-- C2 amended: in every reachable observable state of the manager,
`data` and `error` are never both present. -/
theorem query_data_error_not_both {T : Type} (ops : List (ManagerOp T)) :
    ((managerRun ops).query.data.isSome && (managerRun ops).query.error.isSome) = false :=
  managerFoldl_preserves
    (fun s => (s.query.data.isSome && s.query.error.isSome) = false)
    managerStep_data_error ops (initManager T) rfl

/-- C3 counterexample: `reset()` does not cancel the active
subscription: after start then reset the subscription is still live and
still tracked, and a later emission from it overwrites the reset state. -/
theorem reset_keeps_subscription_live :
    (managerRun (T := Nat) [ManagerOp.exec, ManagerOp.reset]).liveSubs = [0]
    ∧ (managerRun (T := Nat) [ManagerOp.exec, ManagerOp.reset]).subCurrent = some 0
    ∧ (managerRun (T := Nat) [ManagerOp.exec, ManagerOp.reset]).query = ⟨none, false, none⟩
    ∧ (managerRun (T := Nat) [ManagerOp.exec, ManagerOp.reset,
        ManagerOp.nextValue 0 42]).query.data = some 42 := by decide

/-- C3 amended: `reset()` only rewrites the observable state to
`⟨none, false, none⟩`; it starts no new load and leaves the subscription
bookkeeping (live subscriptions, tracked ref, id counter) untouched, so
the active subscription is not cancelled. -/
theorem reset_state_only {T : Type} (ops : List (ManagerOp T)) :
    managerStep (managerRun ops) ManagerOp.reset
      = ({ managerRun ops with query := ⟨none, false, none⟩ }, []) := rfl

/-- C4 counterexample: a second value emitted by the same live
subscription does change the observable state: it replaces `data`. -/
theorem second_value_changes_state :
    (managerRun (T := Nat) [ManagerOp.exec, ManagerOp.nextValue 0 1]).query
      = ⟨some 1, false, none⟩
    ∧ (managerRun (T := Nat) [ManagerOp.exec, ManagerOp.nextValue 0 1,
        ManagerOp.nextValue 0 2]).query = ⟨some 2, false, none⟩
    ∧ decide ((managerRun (T := Nat) [ManagerOp.exec, ManagerOp.nextValue 0 1,
          ManagerOp.nextValue 0 2]).query
        = (managerRun (T := Nat) [ManagerOp.exec, ManagerOp.nextValue 0 1]).query)
      = false := by decide

/-- C4 amended: every value emitted by a live subscription (not only the
first) transitions the manager to Success with that value: `data` is set
to the value, `loading` to false, `error` to none; later values replace
`data` rather than being ignored. -/
theorem nextValue_sets_success {T : Type} (s : ManagerState T) (i : Nat) (v : T)
    (h : i ∈ s.liveSubs) :
    (managerStep s (ManagerOp.nextValue i v)).1.query = ⟨some v, false, none⟩ := by
  simp [managerStep, h]

/-- C4 witness: the amended transition evaluated on the live
subscription created by one `executeQuery`. -/
theorem nextValue_sets_success_witness :
    0 ∈ (managerRun (T := Nat) [ManagerOp.exec]).liveSubs
    ∧ (managerStep (managerRun (T := Nat) [ManagerOp.exec])
        (ManagerOp.nextValue 0 7)).1.query = ⟨some 7, false, none⟩ :=
  ⟨by decide, nextValue_sets_success (managerRun [ManagerOp.exec]) 0 7 (by decide)⟩

/-- C5 counterexample: refetching while the prior subscription is still
live (a stream that emitted a value and has not completed) leaves
`loading = false` after the refetch, because cancelling the prior
subscription fires its `finalize` hook after the initial
`loading := true` update; the claim says loading becomes true. -/
theorem refetch_while_live_resets_loading :
    (managerRun (T := Nat) [ManagerOp.exec, ManagerOp.nextValue 0 5]).query
      = ⟨some 5, false, none⟩
    ∧ 0 ∈ (managerRun (T := Nat) [ManagerOp.exec, ManagerOp.nextValue 0 5]).liveSubs
    ∧ (managerRun (T := Nat) [ManagerOp.exec, ManagerOp.nextValue 0 5,
        ManagerOp.exec]).query = ⟨some 5, false, none⟩ := by decide

/-- C5 amended: starting a refetch always clears `error` and leaves
`data` unchanged; the resulting `loading` flag is true exactly when the
prior subscription had already terminated (when a prior subscription is
still live, its cancellation fires `finalize`, which immediately resets
`loading` to false). -/
theorem executeQuery_state_effect {T : Type} (ops : List (ManagerOp T)) :
    (managerStep (managerRun ops) ManagerOp.exec).1.query
      = ⟨(managerRun ops).query.data, (managerRun ops).liveSubs.isEmpty, none⟩ :=
  (managerStep_exec_shape (managerRun ops) (managerRun_inv ops)).1

/-! ## Theorems: event reconciler -/

/-- C8: the reconciler behaves as the described fold. CREATED appends
unconditionally (so duplicate CREATED for the same id yields duplicate
entries); UPDATED replaces in place the elements whose id matches
(pointwise, preserving positions and length) and is a no-op when nothing
matches; DELETED removes the matching id and is a no-op when absent; and
the two concrete scenarios from the spec hold. -/
theorem applyUserEvent_reconciler_fold :
    (∀ (users : List User) (u : User) (ts : Nat),
        applyUserEvent users ⟨"USER_CREATED", u, ts⟩ = users ++ [u])
    ∧ applyUserEvent (applyUserEvent [] ⟨"USER_CREATED", alice, 0⟩) ⟨"USER_CREATED", alice, 1⟩
        = [alice, alice]
    ∧ (∀ (users : List User) (u : User) (ts k : Nat),
        (applyUserEvent users ⟨"USER_UPDATED", u, ts⟩)[k]?
          = (users[k]?).map fun w => if w.id = u.id then u else w)
    ∧ (∀ (users : List User) (u : User) (ts : Nat),
        (∀ w ∈ users, w.id ≠ u.id) → applyUserEvent users ⟨"USER_UPDATED", u, ts⟩ = users)
    ∧ (∀ (users : List User) (u : User) (ts : Nat),
        (∀ w ∈ users, w.id ≠ u.id) → applyUserEvent users ⟨"USER_DELETED", u, ts⟩ = users)
    ∧ reconcile [⟨"USER_CREATED", alice, 0⟩, ⟨"USER_UPDATED", aliceRenamed, 1⟩,
        ⟨"USER_DELETED", aliceRenamed, 2⟩] = []
    ∧ applyUserEvent [alice, bob] ⟨"USER_UPDATED", user99, 0⟩ = [alice, bob] := by
  refine ⟨?_, by decide, ?_, ?_, ?_, by decide, by decide⟩
  · intro users u ts
    simp [applyUserEvent]
  · intro users u ts k
    simp [applyUserEvent, List.getElem?_map]
  · intro users u ts h
    have hm : applyUserEvent users ⟨"USER_UPDATED", u, ts⟩
        = users.map fun w => if w.id = u.id then u else w := by
      simp [applyUserEvent]
    rw [hm]
    calc users.map (fun w => if w.id = u.id then u else w)
        = users.map id := List.map_congr_left fun w hw => by simp [h w hw]
      _ = users := List.map_id users
  · intro users u ts h
    have hf : applyUserEvent users ⟨"USER_DELETED", u, ts⟩
        = users.filter fun w => w.id != u.id := by
      simp [applyUserEvent]
    rw [hf]
    exact List.filter_eq_self.mpr fun w hw => by simp [h w hw]

/-- C8 witness: the no-op hypotheses of `applyUserEvent_reconciler_fold`
are satisfiable at a concrete list with no matching id. -/
theorem applyUserEvent_reconciler_fold_witness :
    applyUserEvent [alice, bob] ⟨"USER_UPDATED", user99, 5⟩ = [alice, bob]
    ∧ applyUserEvent [alice, bob] ⟨"USER_DELETED", user99, 5⟩ = [alice, bob] :=
  ⟨applyUserEvent_reconciler_fold.2.2.2.1 [alice, bob] user99 5 (by decide),
   applyUserEvent_reconciler_fold.2.2.2.2.1 [alice, bob] user99 5 (by decide)⟩

/-! ## Theorems: resilience wrapper -/

/-- C6 (code-bug evaluation): because `from(this.client.get(url))`
settles the axios promise once, eagerly, every `retry` re-subscription
observes the same settled outcome, so a fail-then-succeed client still
surfaces the normalized `ApiError` of the first (and only) call; had
`retry` re-invoked the client (second conjunct, `retrySubscribe` over
fresh attempts), the success value `42` would have been delivered within
the bound of 3.  The remaining conjuncts pin the correct parts of the
claim: normalization takes the real HTTP status and the backend body
message when present and falls back to 500 and the transport message
otherwise, and a first-call success is delivered as the value. -/
theorem get_reuses_single_settled_promise :
    get "2024-01-01T00:00:00.000Z" failThenSuccess
      = Except.error ⟨"Network Error", 500, "2024-01-01T00:00:00.000Z"⟩
    ∧ retrySubscribe failThenSuccess 0 3 = HttpOutcome.success 42
    ∧ get (T := Nat) "t"
        (fun _ => .failure ⟨"Request failed with status code 400", some 400,
          some "Invalid user data"⟩)
      = Except.error ⟨"Invalid user data", 400, "t"⟩
    ∧ get (T := Nat) "t" (fun _ => .failure ⟨"Network Error", none, none⟩)
      = Except.error ⟨"Network Error", 500, "t"⟩
    ∧ get "t" (fun k => if k = 0 then HttpOutcome.success 7 else .failure ⟨"x", none, none⟩)
      = Except.ok 7 :=
  ⟨rfl, rfl, rfl, rfl, rfl⟩

/-! ## Theorems: server-push adapter -/

theorem foldl_sseOnMessage (decode : String → Option User) :
    ∀ (messages : List String) (acc : List User),
      messages.foldl (sseOnMessage decode) acc = acc ++ messages.filterMap decode
  | [], acc => by simp
  | m :: ms, acc => by
    cases h : decode m with
    | none =>
      simp [List.foldl_cons, sseOnMessage, h, List.filterMap_cons,
        foldl_sseOnMessage decode ms acc]
    | some u =>
      simp [List.foldl_cons, sseOnMessage, h, List.filterMap_cons,
        foldl_sseOnMessage decode ms (acc ++ [u])]

/-- C7: a run of the SSE adapter drops every message that fails to
decode without terminating (the buffer is the in-order `filterMap` of
the inbound messages), emits that accumulated buffer exactly once on
channel termination and completes; and the result does not depend on
whether the channel terminated normally or with a transport error. -/
theorem getAllUsers_buffers_and_completes (decode : String → Option User)
    (messages : List String) (term alt : SseTermination) :
    getAllUsers decode messages term = ([messages.filterMap decode], true)
    ∧ getAllUsers decode messages term = getAllUsers decode messages alt := by
  constructor
  · simp [getAllUsers, foldl_sseOnMessage decode messages []]
  · rfl

/-! ## Theorems: socket adapter -/

lemma statusObservable_eq (a b : StatusObservable) : a = b := by
  cases a
  cases b
  rfl

/-- C9: `disconnect()` never throws, from any prior state: it returns
the state with the socket closed and status `disconnected`, and calling
it again on that resulting state again succeeds and leaves the status
`disconnected`. -/
theorem disconnect_idempotent (s : WebSocketServiceState) :
    disconnect s = Except.ok
        { socketOpen := false, status := ConnectionStatus.disconnected,
          destroyCompleted := true, channelsOpened := s.channelsOpened }
    ∧ disconnect
        { socketOpen := false, status := ConnectionStatus.disconnected,
          destroyCompleted := true, channelsOpened := s.channelsOpened }
      = Except.ok
        { socketOpen := false, status := ConnectionStatus.disconnected,
          destroyCompleted := true, channelsOpened := s.channelsOpened } := by
  constructor
  · rcases s with ⟨so, st, dc, co⟩
    cases so <;> rfl
  · rfl

/-- C10: when the channel is already open (`socket$` non-null),
`connect()` changes nothing — same status (no re-entry into
`connecting`), no second channel created — and returns the same status
observable (the view of the one `connectionStatus$` subject) as any
other call, in particular the first one. -/
theorem connect_noop_when_open (s t : WebSocketServiceState)
    (h : s.socketOpen = true) :
    connect s = (s, StatusObservable.ofConnectionStatusSubject)
    ∧ (connect s).2 = (connect t).2 := by
  constructor
  · simp [connect, h]
  · exact statusObservable_eq _ _

/-- C10 witness: after a first `connect()` from the constructor state
the channel is open, and a second `connect()` is a no-op returning the
same status observable as the first. -/
theorem connect_noop_when_open_witness :
    (connect initWebSocketService).1.socketOpen = true
    ∧ (connect (connect initWebSocketService).1
        = ((connect initWebSocketService).1, StatusObservable.ofConnectionStatusSubject)
       ∧ (connect (connect initWebSocketService).1).2
          = (connect initWebSocketService).2) :=
  ⟨rfl, connect_noop_when_open (connect initWebSocketService).1 initWebSocketService rfl⟩

end WebfluxClient
